import Mathlib

/-!
Verification of the DNI-scraping orchestrator.

Shallow embedding of the Go sources:
* `reniec/main.go` — 15-worker batch that fetches verification digits.
* `complete_name/main.go` — 2-worker token-rotating batch that fetches names.
* the `codigo` package (two variants: the verification-digit one and the
  person-data one) — validation, token extraction, form submission and the
  multi-strategy field-extraction pipeline.
* the dniperu birth-date scraper (`DNIScraper`) — rate-limited lookup with
  a fixed-minute request budget and rate-limit self-recursion.

HTML parsing (goquery) and regex matching are abstracted: a fetched document
is modelled by the projections the extractors query (`HtmlDoc`), since the
spec treats selectors and patterns as a replaceable lookup table.  HTTP
exchanges are modelled by `HttpExchange` / response oracles, and every
network-touching function also returns the list of requests it issued, so
that "no network call" claims are about the request log.
-/

deriving instance DecidableEq for Except

/-- Go `strings.TrimSpace`, written structurally over the character list
(drop leading and trailing whitespace).  Lean's own `String.trim` is
extensionally the same but is defined by well-founded recursion on byte
positions, which the kernel cannot evaluate; all model code trims with
`recortar`. -/
def recortar (s : String) : String :=
  String.mk
    (((s.toList.dropWhile Char.isWhitespace).reverse.dropWhile
        Char.isWhitespace).reverse)

/-- The 8-digit validation shared by the lookup entry points.  In the source
it is the inline check `regexp.MustCompile("^[0-9]{8}$").MatchString(dni)`
(and, in `ConsultarDNI`, additionally `len(dni) != 8`, which is implied for
all-ASCII-digit strings). -/
def formatoDNIValido (s : String) : Bool :=
  s.toList.length == 8 && s.toList.all Char.isDigit

/-- An HTTP request, as logged by the model: the GET of a token/nonce page,
or the form-submission POST carrying the identifier and the token. -/
inductive Req where
  | get (url : String)
  | post (url : String) (dni token : String)
deriving DecidableEq, Repr

/-- True for form-submission POSTs (the lookup attempts). -/
def Req.esPost : Req → Bool
  | .post _ _ _ => true
  | .get _ => false

/-- Abstraction of a parsed HTML document: exactly the projections queried by
the extractors in the source.  A concrete fetched page determines all of
them; fields not present on a page are the defaults. -/
structure HtmlDoc where
  /-- value of `input[name='_token']`, when present (`ExtraerToken`). -/
  tokenInput : Option String := none
  /-- text of the first `mark` element (`extraerCodigo`). -/
  markText : String := ""
  /-- value of `#digito_verificador`, when present (`extraerCodigo`). -/
  inputDigito : Option String := none
  /-- capture group 1 of each of the three digit regex patterns, in source
  order, when the pattern matches (`extraerCodigo`). -/
  regexDigitoCaps : List (Option String) := []
  /-- value of `#nombres` or `""` (`extraerDatosPersona`, strategy 1). -/
  inputNombres : String := ""
  /-- value of `#apellidop` or `""`. -/
  inputApellidoP : String := ""
  /-- value of `#apellidom` or `""`. -/
  inputApellidoM : String := ""
  /-- texts of the `table tbody tr td` cells, in document order
  (`extraerDatosPersona`, strategy 2 indexes them 1, 2, 3). -/
  tableCells : List String := []
  /-- text of the first `.nombres, .nombre, [data-nombres]` element. -/
  cssNombres : String := ""
  /-- text of the first `.apellido-paterno, .paterno, [data-paterno]`. -/
  cssApellidoP : String := ""
  /-- text of the first `.apellido-materno, .materno, [data-materno]`. -/
  cssApellidoM : String := ""
  /-- capture group 1 of the `nombres` regex, when it matches
  (`extractDataWithRegex`). -/
  regexNombres : Option String := none
  /-- capture group 1 of the `apellido paterno` regex, when it matches. -/
  regexApellidoP : Option String := none
  /-- capture group 1 of the `apellido materno` regex, when it matches. -/
  regexApellidoM : Option String := none
deriving DecidableEq

/-- One HTTP exchange as seen by the Go client: a possible `client.Do`
error, the status code, a possible body-read (gzip) error, and the parsed
body.  The checks happen in exactly this order in the source. -/
structure HttpExchange where
  doErr : Option String := none
  status : Nat := 200
  readErr : Option String := none
  doc : HtmlDoc := {}
deriving DecidableEq

namespace CompleteName

/-- `indexSubstring` of `complete_name/main.go`: the scanning loop
`for i := 0; i <= len(s)-len(substr); i++ { if s[i:i+len(substr)] == substr
{ return i } }; return -1`, with Go byte strings modelled as `List Char`. -/
def indexSubstringFrom (s sub : List Char) (i : Nat) : Int :=
  if sub.length ≤ s.length then
    if sub.isPrefixOf s then (i : Int)
    else
      match s with
      | [] => -1
      | _ :: t => indexSubstringFrom t sub (i + 1)
  else -1

/-- `indexSubstring(s, substr)`. -/
def indexSubstring (s sub : List Char) : Int :=
  indexSubstringFrom s sub 0

/-- The hand-rolled `contains(s, substr)` of `complete_name/main.go`. -/
def contains (s sub : List Char) : Bool :=
  decide (sub.length ≤ s.length) &&
    (s == sub || (decide (sub.length < s.length) &&
      (s.take sub.length == sub || s.drop (s.length - sub.length) == sub ||
        indexSubstring s sub != -1)))

/-- `isRateLimitError(err)`: `nil` errors (modelled as `none`) are not rate
limits; otherwise the error text is searched for `"429"`. -/
def isRateLimitError : Option String → Bool
  | none => false
  | some msg => contains msg.toList ("429".toList)

end CompleteName

/-! ## `codigo` package, verification-digit variant

The file defining `ObtenerCodigoVerificacion`, `obtenerToken`,
`enviarFormulario`, `extraerCodigo` and `esDigito` (used by
`reniec/main.go`). -/

namespace CodigoVerif

def targetURL : String := "https://eldni.com/pe/obtener-digito-verificador-del-dni"

/-- `esDigito(s)`: `^\d$`, i.e. the string is exactly one ASCII digit. -/
def esDigito (s : String) : Bool :=
  match s.toList with
  | [c] => c.isDigit
  | _ => false

/-- The regex ladder at the end of `extraerCodigo`: first pattern whose
capture passes `esDigito` wins; otherwise `""`. -/
def primerCapDigito : List (Option String) → String
  | [] => ""
  | none :: resto => primerCapDigito resto
  | some c :: resto => if esDigito c then c else primerCapDigito resto

/-- `extraerCodigo(doc, html)`: the trimmed `mark` text if it is a digit,
else the `#digito_verificador` input value if it is a digit, else the first
digit produced by the regex patterns, else `""`. -/
def extraerCodigo (doc : HtmlDoc) : String :=
  let codigo := recortar doc.markText
  if esDigito codigo then codigo
  else
    match doc.inputDigito with
    | some v => if esDigito v then v else primerCapDigito doc.regexDigitoCaps
    | none => primerCapDigito doc.regexDigitoCaps

/-- `leerRespuesta`: body read, failing on a gzip decoding error. -/
def leerRespuesta (e : HttpExchange) : Except String HtmlDoc :=
  match e.readErr with
  | some msg => Except.error msg
  | none => Except.ok e.doc

/-- `obtenerToken(client, targetURL)`: one GET; transport error, body-read
error, then the `_token` input (this variant has no status-code check). -/
def obtenerToken (e : HttpExchange) : Except String String × List Req :=
  let log : List Req := [Req.get targetURL]
  match e.doErr with
  | some msg => (Except.error msg, log)
  | none =>
    match leerRespuesta e with
    | Except.error msg => (Except.error msg, log)
    | Except.ok doc =>
      match doc.tokenInput with
      | some token => (Except.ok token, log)
      | none => (Except.error "token no encontrado", log)

/-- `enviarFormulario(client, targetURL, dni, token)`: one POST; transport
error, then `status >= 400`, then body read, then `extraerCodigo`; an empty
extraction is the failure `código no encontrado`. -/
def enviarFormulario (dni token : String) (e : HttpExchange) :
    Except String String × List Req :=
  let log : List Req := [Req.post targetURL dni token]
  match e.doErr with
  | some msg => (Except.error msg, log)
  | none =>
    if 400 ≤ e.status then
      (Except.error ("error servidor: " ++ toString e.status), log)
    else
      match leerRespuesta e with
      | Except.error msg => (Except.error msg, log)
      | Except.ok doc =>
        let codigo := extraerCodigo doc
        if codigo = "" then (Except.error "código no encontrado", log)
        else (Except.ok codigo, log)

/-- `ObtenerCodigoVerificacion(dni)`: reject non-8-digit identifiers before
any network activity, else GET the token page then POST the form.
`e1` is the token-page exchange, `e2` the submission exchange. -/
def ObtenerCodigoVerificacion (dni : String) (e1 e2 : HttpExchange) :
    Except String String × List Req :=
  if !(formatoDNIValido dni) then (Except.error "DNI inválido", [])
  else
    match obtenerToken e1 with
    | (Except.error msg, log) => (Except.error msg, log)
    | (Except.ok token, log) =>
      let r := enviarFormulario dni token e2
      (r.1, log ++ r.2)

end CodigoVerif

/-! ## `reniec/main.go` — the verification-digit batch -/

namespace Reniec

/-- `maxReintentos` in `procesarDNI`. -/
def maxReintentos : Nat := 2

/-- The backoff slept between attempts: `time.Duration(intento*2) * time.Second`. -/
def backoff (intento : Nat) : Nat := intento * 2

/-- `procesarDNI(dni)`: up to `maxReintentos` attempts of
`ObtenerCodigoVerificacion`; every failure is retried, and on exhaustion the
last error is returned.  `a1`/`a2` are the (token page, submission) exchange
pairs of the two possible attempts.  The second component is the number of
attempts actually made. -/
def procesarDNI (dni : String) (a1 a2 : HttpExchange × HttpExchange) :
    Except String String × Nat :=
  match CodigoVerif.ObtenerCodigoVerificacion dni a1.1 a1.2 with
  | (Except.ok codigo, _) => (Except.ok codigo, 1)
  | (Except.error _, _) =>
    match CodigoVerif.ObtenerCodigoVerificacion dni a2.1 a2.2 with
    | (Except.ok codigo, _) => (Except.ok codigo, 2)
    | (Except.error e, _) => (Except.error e, 2)

end Reniec

/-! ## `codigo` package, person-data variant

The file defining `ObtenerDatosPersona`, `extraerDatosPersona`,
`extractDataWithRegex`, `ExtraerToken` and `EnviarFormularioConToken`
(used by `complete_name/main.go`). -/

/-- `DatosPersona`. -/
structure DatosPersona where
  dni : String
  nombres : String
  apellidoPaterno : String
  apellidoMaterno : String
  codigoVerif : String
deriving DecidableEq

namespace CodigoDatos

def targetURL : String := "https://eldni.com/pe/buscar-datos-por-dni"

/-- Strategy 2 cell access: the trimmed text of `table tbody tr td` number
`i`.  When the document has no such cell the loop body never runs for that
index, which coincides with assigning the empty default. -/
def celda (doc : HtmlDoc) (i : Nat) : String :=
  recortar (doc.tableCells.getD i "")

/-- `extractDataWithRegex(html, datos)`: for each still-empty field, if its
pattern matches, the trimmed capture is assigned (even when the capture
trims to empty).  The source iterates a Go map whose three patterns write
three distinct fields, so iteration order is immaterial and a fixed order
is used here. -/
def extractDataWithRegex (doc : HtmlDoc) (n p m : String) :
    String × String × String :=
  (if n = "" then
     match doc.regexNombres with
     | some c => recortar c
     | none => n
   else n,
   if p = "" then
     match doc.regexApellidoP with
     | some c => recortar c
     | none => p
   else p,
   if m = "" then
     match doc.regexApellidoM with
     | some c => recortar c
     | none => m
   else m)

/-- The field-filling chain of `extraerDatosPersona`, before the final
all-empty check: strategy 1 copies the `#nombres`/`#apellidop`/`#apellidom`
input values; strategy 2 (run when some field is still empty) fills empty
fields from table cells 1, 2, 3; strategy 3 fills each still-empty field
from its CSS-class lookup when that text is non-empty; strategy 4 (run when
some field is still empty) is `extractDataWithRegex`.  Returns
(nombres, apellidoPaterno, apellidoMaterno). -/
def camposExtraidos (doc : HtmlDoc) : String × String × String :=
  let n0 := recortar doc.inputNombres
  let p0 := recortar doc.inputApellidoP
  let m0 := recortar doc.inputApellidoM
  let n1 := if n0 = "" ∨ p0 = "" ∨ m0 = "" then (if n0 = "" then celda doc 1 else n0) else n0
  let p1 := if n0 = "" ∨ p0 = "" ∨ m0 = "" then (if p0 = "" then celda doc 2 else p0) else p0
  let m1 := if n0 = "" ∨ p0 = "" ∨ m0 = "" then (if m0 = "" then celda doc 3 else m0) else m0
  let n2 := if n1 = "" then (if recortar doc.cssNombres ≠ "" then recortar doc.cssNombres else n1) else n1
  let p2 := if p1 = "" then (if recortar doc.cssApellidoP ≠ "" then recortar doc.cssApellidoP else p1) else p1
  let m2 := if m1 = "" then (if recortar doc.cssApellidoM ≠ "" then recortar doc.cssApellidoM else m1) else m1
  let n3 := if n2 = "" ∨ p2 = "" ∨ m2 = "" then (extractDataWithRegex doc n2 p2 m2).1 else n2
  let p3 := if n2 = "" ∨ p2 = "" ∨ m2 = "" then (extractDataWithRegex doc n2 p2 m2).2.1 else p2
  let m3 := if n2 = "" ∨ p2 = "" ∨ m2 = "" then (extractDataWithRegex doc n2 p2 m2).2.2 else m2
  (n3, p3, m3)

/-- `extraerDatosPersona(html, dni)`: run the strategy chain; set
`CodigoVerif` to `""`; fail with `no se encontraron datos` iff every field
of interest is still empty, else return the (possibly partial) record. -/
def extraerDatosPersona (doc : HtmlDoc) (dni : String) :
    Except String DatosPersona :=
  let campos := camposExtraidos doc
  if campos.1 = "" ∧ campos.2.1 = "" ∧ campos.2.2 = "" then
    Except.error ("no se encontraron datos para el DNI " ++ dni)
  else
    Except.ok
      { dni := dni, nombres := campos.1, apellidoPaterno := campos.2.1,
        apellidoMaterno := campos.2.2, codigoVerif := "" }

/-- `ExtraerToken(html)`: the `_token` input value. -/
def ExtraerToken (doc : HtmlDoc) : Except String String :=
  match doc.tokenInput with
  | some token => Except.ok token
  | none => Except.error "token CSRF no encontrado"

/-- `obtenerToken(client, targetURL)` of this variant: GET; transport error,
then `status >= 400`, then body read, then `ExtraerToken`. -/
def obtenerToken (e : HttpExchange) : Except String String × List Req :=
  let log : List Req := [Req.get targetURL]
  match e.doErr with
  | some msg => (Except.error msg, log)
  | none =>
    if 400 ≤ e.status then
      (Except.error ("error del servidor: " ++ toString e.status), log)
    else
      match CodigoVerif.leerRespuesta e with
      | Except.error msg => (Except.error msg, log)
      | Except.ok doc =>
        match ExtraerToken doc with
        | Except.ok token => (Except.ok token, log)
        | Except.error msg => (Except.error msg, log)

/-- `enviarFormularioDatos(client, targetURL, dni, token)`: one POST;
transport error, then `status >= 400`, then body read, then
`extraerDatosPersona`. -/
def enviarFormularioDatos (dni token : String) (e : HttpExchange) :
    Except String DatosPersona × List Req :=
  let log : List Req := [Req.post targetURL dni token]
  match e.doErr with
  | some msg => (Except.error msg, log)
  | none =>
    if 400 ≤ e.status then
      (Except.error ("error del servidor: " ++ toString e.status), log)
    else
      match CodigoVerif.leerRespuesta e with
      | Except.error msg => (Except.error msg, log)
      | Except.ok doc => (extraerDatosPersona doc dni, log)

/-- `EnviarFormularioConToken`: textually the same body as
`enviarFormularioDatos` in the source (same request, headers, checks and
extraction). -/
def EnviarFormularioConToken (dni token : String) (e : HttpExchange) :
    Except String DatosPersona × List Req :=
  enviarFormularioDatos dni token e

/-- `ObtenerDatosPersona(dni)`: reject non-8-digit identifiers before any
network activity, else GET the token page then POST the form. -/
def ObtenerDatosPersona (dni : String) (e1 e2 : HttpExchange) :
    Except String DatosPersona × List Req :=
  if !(formatoDNIValido dni) then
    (Except.error "DNI inválido: debe tener 8 dígitos", [])
  else
    match obtenerToken e1 with
    | (Except.error msg, log) =>
      (Except.error ("error obteniendo token: " ++ msg), log)
    | (Except.ok token, log) =>
      let r := enviarFormularioDatos dni token e2
      (r.1, log ++ r.2)

end CodigoDatos

/-! ## `complete_name/main.go` — the token-rotating worker -/

namespace CompleteName

def targetURL : String := "https://eldni.com/pe/buscar-datos-por-dni"

/-- `WorkerState` (the HTTP client and its cookie jar are implicit in the
exchanges). -/
structure WorkerState where
  id : Nat := 1
  token : String := ""
  consultCount : Nat := 0
deriving DecidableEq

/-- `renovarToken(state)`: one GET against the lookup page; on transport
error, server status `>= 400`, body-read error or missing `_token` input
the state is returned unchanged together with the error; only on success is
`state.Token` replaced.  Returns (state, error?, requests issued). -/
def renovarToken (st : WorkerState) (e : HttpExchange) :
    WorkerState × Option String × List Req :=
  let log : List Req := [Req.get targetURL]
  match e.doErr with
  | some msg => (st, some msg, log)
  | none =>
    if 400 ≤ e.status then
      (st, some ("error del servidor: " ++ toString e.status), log)
    else
      match e.readErr with
      | some msg => (st, some msg, log)
      | none =>
        match CodigoDatos.ExtraerToken e.doc with
        | Except.error msg => (st, some msg, log)
        | Except.ok token => ({ st with token := token }, none, log)

/-- `consultarDNIConToken(dni, state)`: fail with `token no disponible`
when the state has no token (no request issued); otherwise submit the form
with the current token.  Note: unlike the other entry points, this path
performs no 8-digit format validation. -/
def consultarDNIConToken (dni : String) (st : WorkerState) (e : HttpExchange) :
    Except String DatosPersona × List Req :=
  if st.token = "" then (Except.error "token no disponible", [])
  else CodigoDatos.EnviarFormularioConToken dni st.token e

/-- `maxReintentos` in `procesarDNIConToken`. -/
def maxReintentos : Nat := 2

/-- Rate-limit cooldown before renewing: `time.Duration(30+intento*30) * time.Second`. -/
def waitRateLimit (intento : Nat) : Nat := 30 + intento * 30

/-- Backoff between attempts: `time.Duration(intento*10) * time.Second`. -/
def backoff (intento : Nat) : Nat := intento * 10

/-- `procesarDNIConToken(dni, state)`: up to `maxReintentos` attempts of
`consultarDNIConToken`.  Every failure is retried; when a failure is a
rate-limit (`429` in the message) the worker waits and calls
`renovarToken`, and if that renewal fails it logs a warning and continues
with whatever token the state already holds.  On exhaustion the last error
is wrapped.  `e1`/`e2` are the submission exchanges of the two attempts,
`r1`/`r2` the token-page exchanges of the renewals that a rate-limited
attempt triggers.  Returns (result, final state, requests issued, attempts
made). -/
def procesarDNIConToken (dni : String) (st : WorkerState)
    (e1 r1 e2 r2 : HttpExchange) :
    Except String DatosPersona × WorkerState × List Req × Nat :=
  match consultarDNIConToken dni st e1 with
  | (Except.ok datos, log1) => (Except.ok datos, st, log1, 1)
  | (Except.error err1, log1) =>
    let ren1 :=
      if isRateLimitError (some err1) then
        let r := renovarToken st r1
        (r.1, r.2.2)
      else (st, ([] : List Req))
    let st1 := ren1.1
    match consultarDNIConToken dni st1 e2 with
    | (Except.ok datos, log2) =>
      (Except.ok datos, st1, log1 ++ ren1.2 ++ log2, 2)
    | (Except.error err2, log2) =>
      let ren2 :=
        if isRateLimitError (some err2) then
          let r := renovarToken st1 r2
          (r.1, r.2.2)
        else (st1, ([] : List Req))
      (Except.error ("agotó " ++ toString maxReintentos ++ " reintentos: " ++ err2),
       ren2.1, log1 ++ ren1.2 ++ log2 ++ ren2.2, 2)

/-- The proactive renewal at the top of the worker loop
(`workerConToken`): every third lookup the token is renewed, and when the
renewal fails the worker keeps the current token and proceeds. -/
def renovacionPeriodica (st : WorkerState) (e : HttpExchange) : WorkerState :=
  if st.consultCount % 3 = 0 ∧ 0 < st.consultCount then (renovarToken st e).1
  else st

end CompleteName

/-! ## The dniperu birth-date scraper (`DNIScraper`)

`ConsultarDNI` is modelled with explicit wall-clock time (in seconds):
sleeps advance the clock, network latencies come from the response oracles,
and every issued HTTP request is logged with its issue time.  The Go
function retries a `demasiadas solicitudes` response by calling itself;
each such retry consumes one POST response from the oracle, so a fuel
parameter instantiated with the oracle length bounds the recursion. -/

namespace Scraper

def urlFecha : String := "https://dniperu.com/fecha-de-nacimiento-con-dni/"

def urlAjax : String := "https://dniperu.com/wp-admin/admin-ajax.php"

/-- `strings.Contains(s, sub)` of the Go standard library: substring
containment, stated directly as the (decidable) infix relation. -/
def goContains (s sub : String) : Bool :=
  decide (sub.toList <:+: s.toList)

/-- The mutable fields of `DNIScraper` that the control flow reads
(`lastRequest` and the cookie jar are write-only / implicit). -/
structure ScraperState where
  nonce : String := ""
  requestCount : Nat := 0
  minuteStart : Nat := 0
  requestsInMinute : Nat := 0
deriving DecidableEq

/-- `DNIData`. -/
structure DNIData where
  dni : String
  nombres : String
  fechaNacimiento : String
deriving DecidableEq

/-- Oracle entry for one nonce-page GET: response latency, a possible
`client.Do` error, and the nonce the `fecha_vars` script regex yields (if
any). -/
structure NonceResp where
  latency : Nat := 0
  err : Option String := none
  nonceEncontrado : Option String := none
deriving DecidableEq

/-- The five response shapes `ConsultarDNI` distinguishes after its POST:
transport error, literal `-1` body, literal `0` body, unparseable JSON,
`success:false` with a message, and `success:true` with data. -/
inductive PostOutcome where
  | netErr (msg : String)
  | cuerpoMenos1
  | cuerpo0
  | parseErr
  | noExitosa (message : String)
  | exitosa (nombres fecha : String)
deriving DecidableEq

/-- Oracle entry for one submission POST. -/
structure PostResp where
  latency : Nat := 0
  outcome : PostOutcome
deriving DecidableEq

/-- Outcome of a nonce-acquisition phase: new state, new time, requests
issued, error (if any), remaining nonce oracle. -/
structure NonceStep where
  st : ScraperState
  t : Nat
  log : List (Nat × Req)
  err : Option String
  resto : List NonceResp

/-- `getNonce()`: one GET of the form page; on transport error fail; store
the nonce the page script yields; if the stored nonce is still empty fail
with `no se pudo obtener el nonce`.  An exhausted oracle is a request whose
response never arrives (a transport error). -/
def getNonce (st : ScraperState) (t : Nat) : List NonceResp → NonceStep
  | [] => ⟨st, t, [(t, Req.get urlFecha)], some "modelo: sin respuesta", []⟩
  | r :: resto =>
    let log := [(t, Req.get urlFecha)]
    match r.err with
    | some msg => ⟨st, t + r.latency, log, some msg, resto⟩
    | none =>
      let st1 :=
        match r.nonceEncontrado with
        | some nz => { st with nonce := nz }
        | none => st
      if st1.nonce = "" then
        ⟨st1, t + r.latency, log, some "no se pudo obtener el nonce", resto⟩
      else ⟨st1, t + r.latency, log, none, resto⟩

/-- `resetSession()`: fresh cookie jar, nonce cleared, request counter
cleared, a 3-second sleep, then `getNonce`. -/
def resetSession (st : ScraperState) (t : Nat) (nonces : List NonceResp) :
    NonceStep :=
  getNonce { st with nonce := "", requestCount := 0 } (t + 3) nonces

/-- Result of one `ConsultarDNI` call: outcome, final scraper state, final
time, timestamped requests issued, remaining oracles. -/
structure CallResult where
  res : Except String DNIData
  st : ScraperState
  t : Nat
  log : List (Nat × Req)
  nonces : List NonceResp
  posts : List PostResp

/-- `ConsultarDNI(dni)`, fueled.  Faithful phase order: 8-digit validation;
fixed-minute rollover (`>= 60s` since `minuteStart`); quota wait when 5
requests were already issued this minute (sleep `62 - elapsed`, reset the
window); 12-second pacing when the window already has a request; session
reset every 5th call (`requestCount > 4`); nonce acquisition when the nonce
is empty; the POST (incrementing the in-window counter); and the response
dispatch, where a `demasiadas solicitudes` message sleeps 10 seconds,
resets the window and the session, and re-invokes the whole function. -/
def consultarDNIGo :
    Nat → String → ScraperState → Nat → List NonceResp → List PostResp →
    CallResult
  | 0, _, st, t, nonces, posts =>
    ⟨Except.error "modelo: sin combustible", st, t, [], nonces, posts⟩
  | fuel + 1, dni, st0, t0, nonces, posts =>
    if !(formatoDNIValido dni) then
      ⟨Except.error "DNI debe tener 8 dígitos", st0, t0, [], nonces, posts⟩
    else
      let now := t0
      let stA :=
        if 60 ≤ now - st0.minuteStart then
          { st0 with minuteStart := now, requestsInMinute := 0 }
        else st0
      let pA : ScraperState × Nat :=
        if 5 ≤ stA.requestsInMinute then
          let t2 := now + (62 - (now - stA.minuteStart))
          ({ stA with minuteStart := t2, requestsInMinute := 0 }, t2)
        else (stA, t0)
      let stB := pA.1
      let t1 := if 0 < stB.requestsInMinute then pA.2 + 12 else pA.2
      let stC := { stB with requestCount := stB.requestCount + 1 }
      let fase1 : NonceStep :=
        if 4 < stC.requestCount then resetSession stC t1 nonces
        else ⟨stC, t1, [], none, nonces⟩
      match fase1.err with
      | some msg => ⟨Except.error msg, fase1.st, fase1.t, fase1.log, fase1.resto, posts⟩
      | none =>
        let fase2 : NonceStep :=
          if fase1.st.nonce = "" then getNonce fase1.st fase1.t fase1.resto
          else ⟨fase1.st, fase1.t, [], none, fase1.resto⟩
        match fase2.err with
        | some msg =>
          ⟨Except.error msg, fase2.st, fase2.t, fase1.log ++ fase2.log, fase2.resto, posts⟩
        | none =>
          let stD := { fase2.st with requestsInMinute := fase2.st.requestsInMinute + 1 }
          let tP := fase2.t
          let logPre := fase1.log ++ fase2.log ++ [(tP, Req.post urlAjax dni stD.nonce)]
          match posts with
          | [] => ⟨Except.error "modelo: sin respuesta", stD, tP, logPre, fase2.resto, []⟩
          | pr :: posts1 =>
            let t5 := tP + pr.latency
            match pr.outcome with
            | PostOutcome.netErr msg =>
              ⟨Except.error msg, stD, t5, logPre, fase2.resto, posts1⟩
            | PostOutcome.cuerpoMenos1 =>
              ⟨Except.error "acceso denegado", stD, t5, logPre, fase2.resto, posts1⟩
            | PostOutcome.cuerpo0 =>
              ⟨Except.error "DNI no encontrado", stD, t5, logPre, fase2.resto, posts1⟩
            | PostOutcome.parseErr =>
              ⟨Except.error "error parseando respuesta", stD, t5, logPre, fase2.resto, posts1⟩
            | PostOutcome.exitosa nombres fecha =>
              ⟨Except.ok ⟨dni, nombres, fecha⟩, stD, t5, logPre, fase2.resto, posts1⟩
            | PostOutcome.noExitosa msg =>
              if goContains msg "demasiadas solicitudes" then
                let t6 := t5 + 10
                let stE := { stD with minuteStart := t6, requestsInMinute := 0 }
                let fase3 := resetSession stE t6 fase2.resto
                match fase3.err with
                | some m2 =>
                  ⟨Except.error m2, fase3.st, fase3.t, logPre ++ fase3.log, fase3.resto, posts1⟩
                | none =>
                  let resI := consultarDNIGo fuel dni fase3.st fase3.t fase3.resto posts1
                  ⟨resI.res, resI.st, resI.t, logPre ++ fase3.log ++ resI.log,
                   resI.nonces, resI.posts⟩
              else
                ⟨Except.error ("consulta no exitosa: " ++ msg), stD, t5, logPre,
                 fase2.resto, posts1⟩

/-- `ConsultarDNI(dni)`: the fuel `posts.length + 1` always suffices
because every self-reinvocation consumes one POST response. -/
def ConsultarDNI (dni : String) (st : ScraperState) (t : Nat)
    (nonces : List NonceResp) (posts : List PostResp) : CallResult :=
  consultarDNIGo (posts.length + 1) dni st t nonces posts

/-- `ConsultarMultiplesDNIs(dnis)`: sequential calls, errors reported and
skipped; returns the final state, final time, and the concatenated request
log. -/
def ConsultarMultiplesDNIs (st : ScraperState) (t : Nat)
    (nonces : List NonceResp) (posts : List PostResp) :
    List String → ScraperState × Nat × List (Nat × Req)
  | [] => (st, t, [])
  | dni :: resto =>
    let r := ConsultarDNI dni st t nonces posts
    let rr := ConsultarMultiplesDNIs r.st r.t r.nonces r.posts resto
    (rr.1, rr.2.1, r.log ++ rr.2.2)

end Scraper

/-! ## Orchestrator / Worker / Collector transition system

Model of the batch pipeline of `complete_name/main.go` (and, minus the
session-acquisition phase, `reniec/main.go`): a queue channel filled once
with all identifiers, N workers, a buffered result channel and one
collector.  Worker phases follow `workerConToken`: a worker first acquires
its initial token — on failure it returns without consuming anything
(`startFail`); otherwise it alternates taking an identifier and emitting
exactly one result for it (`procesarDNIConToken` always returns and the
send on the buffered channel always happens), and terminates when the
closed queue is drained.  The collector consumes buffered results one at a
time.  The boolean index selects whether the session-acquisition failure
step is available. -/

namespace Batch

inductive WPhase where
  | starting
  | idle
  | working (dni : String)
  | done
deriving DecidableEq

structure BatchState where
  queue : List String
  workers : List WPhase
  buffer : List String
  consumed : List String
deriving DecidableEq

/-- The identifiers currently held by a worker between `take` and `emit`. -/
def enProceso (ws : List WPhase) : List String :=
  ws.filterMap fun w =>
    match w with
    | WPhase.working d => some d
    | _ => none

/-- One interleaving step of the batch run. -/
inductive BStep : Bool → BatchState → BatchState → Prop where
  | startOk (b : Bool) (q pre post buf con) :
      BStep b ⟨q, pre ++ WPhase.starting :: post, buf, con⟩
        ⟨q, pre ++ WPhase.idle :: post, buf, con⟩
  | startFail (q pre post buf con) :
      BStep true ⟨q, pre ++ WPhase.starting :: post, buf, con⟩
        ⟨q, pre ++ WPhase.done :: post, buf, con⟩
  | take (b : Bool) (d q pre post buf con) :
      BStep b ⟨d :: q, pre ++ WPhase.idle :: post, buf, con⟩
        ⟨q, pre ++ WPhase.working d :: post, buf, con⟩
  | emit (b : Bool) (d q pre post buf con) :
      BStep b ⟨q, pre ++ WPhase.working d :: post, buf, con⟩
        ⟨q, pre ++ WPhase.idle :: post, buf ++ [d], con⟩
  | finish (b : Bool) (pre post buf con) :
      BStep b ⟨[], pre ++ WPhase.idle :: post, buf, con⟩
        ⟨[], pre ++ WPhase.done :: post, buf, con⟩
  | consume (b : Bool) (q ws d buf con) :
      BStep b ⟨q, ws, d :: buf, con⟩ ⟨q, ws, buf, con ++ [d]⟩

/-- Reachability by interleaving steps. -/
def Alcanzable (b : Bool) : BatchState → BatchState → Prop :=
  Relation.ReflTransGen (BStep b)

/-- The run is over: `wg.Wait()` returned (all workers done) and the
collector drained the closed result channel — the point at which
`complete_name` prints its `{exitosos, errores, total}` summary. -/
def Terminal (s : BatchState) : Prop :=
  (∀ w ∈ s.workers, w = WPhase.done) ∧ s.buffer = []

/-- Conservation quantity: every identifier is in the queue, held by a
worker, buffered as a result, or consumed. -/
def carga (s : BatchState) : Multiset String :=
  (s.queue : Multiset String) + (enProceso s.workers : Multiset String) +
    (s.buffer : Multiset String) + (s.consumed : Multiset String)

/-- Some worker is still able to drain the queue. -/
def ViveAlguien (s : BatchState) : Prop :=
  s.queue ≠ [] → ∃ w ∈ s.workers, w ≠ WPhase.done

end Batch

/-! ## Spec-side definitions for the extraction-pipeline claims -/

/-- The first non-empty string of a list, or `""`: the specification of
"first-match-wins per field" over the ordered strategy outputs. -/
def primeraNoVacia : List String → String
  | [] => ""
  | x :: resto => if x ≠ "" then x else primeraNoVacia resto

namespace CodigoDatos

/-- The ordered outputs of the four strategies for the `nombres` field:
structured input, table cell 1, CSS lookup, regex capture (a non-matching
regex contributes nothing, i.e. `""`). -/
def fuentesNombres (doc : HtmlDoc) : List String :=
  [recortar doc.inputNombres, celda doc 1, recortar doc.cssNombres,
   match doc.regexNombres with
   | some c => recortar c
   | none => ""]

/-- The ordered strategy outputs for `apellidoPaterno` (table cell 2). -/
def fuentesApellidoP (doc : HtmlDoc) : List String :=
  [recortar doc.inputApellidoP, celda doc 2, recortar doc.cssApellidoP,
   match doc.regexApellidoP with
   | some c => recortar c
   | none => ""]

/-- The ordered strategy outputs for `apellidoMaterno` (table cell 3). -/
def fuentesApellidoM (doc : HtmlDoc) : List String :=
  [recortar doc.inputApellidoM, celda doc 3, recortar doc.cssApellidoM,
   match doc.regexApellidoM with
   | some c => recortar c
   | none => ""]

end CodigoDatos

/-! ## Concrete example inputs used by witnesses and counterexamples -/

/-- A submission response page whose `mark` element holds ` 5 `. -/
def ejemploDocDigito : HtmlDoc := { markText := " 5 " }

/-- A submission response page where only the `#nombres` input is filled. -/
def ejemploDocParcial : HtmlDoc := { inputNombres := " ANA " }

/-- A worker that already acquired the token `tok0`. -/
def ejemploEstadoC8 : CompleteName.WorkerState :=
  { id := 1, token := "tok0", consultCount := 0 }

/-- An exchange answered with HTTP 429 (the endpoint throttling). -/
def ejemploIntercambio429 : HttpExchange := { status := 429 }

/-- An exchange that fails at the transport level. -/
def ejemploIntercambioCaido : HttpExchange := { doErr := some "conexion rechazada" }

/-- A run of the birth-date scraper against an endpoint that answers
`demasiadas solicitudes` to the first `k` submissions and then drops the
connection; every session reset finds a fresh nonce.  The scraper starts
with a nonce already in hand. -/
def Scraper.trazaSaturada (k : Nat) : Scraper.CallResult :=
  Scraper.ConsultarDNI "11111111" { nonce := "n0" } 0
    (List.replicate k ⟨0, none, some "n"⟩)
    (List.replicate k ⟨0, Scraper.PostOutcome.noExitosa "demasiadas solicitudes"⟩ ++
      [⟨0, Scraper.PostOutcome.netErr "sin conexion"⟩])

/-- Nonce-page responses for the C3 run: the initial acquisition and the
one the 5th call's session reset performs. -/
def ejemploNoncesC3 : List Scraper.NonceResp :=
  [⟨0, none, some "n1"⟩, ⟨0, none, some "n2"⟩]

/-- Submission responses for the C3 run: five immediate successes. -/
def ejemploPostsC3 : List Scraper.PostResp :=
  List.replicate 5 ⟨0, Scraper.PostOutcome.exitosa "ANA" "01/01/2000"⟩

/-- The timestamped request log of a batch of five identifiers starting at
time 0 from a fresh scraper. -/
def trazaC3 : List (Nat × Req) :=
  (Scraper.ConsultarMultiplesDNIs {} 0 ejemploNoncesC3 ejemploPostsC3
    ["11111111", "22222222", "33333333", "44444444", "55555555"]).2.2

/-! # Theorems -/

/-! ## C9 — the hand-rolled `contains` is substring containment -/

theorem CompleteName.indexSubstringFrom_ne_neg_one (s sub : List Char) (i : Nat) :
    CompleteName.indexSubstringFrom s sub i ≠ -1 ↔ sub <:+: s := by
  induction s generalizing i with
  | nil =>
    unfold CompleteName.indexSubstringFrom
    by_cases hle : sub.length ≤ ([] : List Char).length
    · have hsub : sub = [] := List.length_eq_zero.mp (Nat.le_zero.mp hle)
      subst hsub
      simp
    · rw [if_neg hle]
      constructor
      · intro h; exact absurd rfl h
      · intro h; exact absurd h.length_le hle
  | cons a t ih =>
    unfold CompleteName.indexSubstringFrom
    by_cases hle : sub.length ≤ (a :: t).length
    · rw [if_pos hle]
      by_cases hpre : sub.isPrefixOf (a :: t)
      · rw [if_pos hpre]
        constructor
        · intro _
          exact (List.isPrefixOf_iff_prefix.mp hpre).isInfix
        · intro _
          omega
      · rw [if_neg hpre]
        show CompleteName.indexSubstringFrom t sub (i + 1) ≠ -1 ↔ _
        rw [ih, List.infix_cons_iff]
        have : ¬ sub <+: a :: t := fun h => hpre (List.isPrefixOf_iff_prefix.mpr h)
        tauto
    · rw [if_neg hle]
      constructor
      · intro h; exact absurd rfl h
      · intro h; exact absurd h.length_le hle

theorem CompleteName.contains_iff (s sub : List Char) :
    CompleteName.contains s sub = true ↔ sub <:+: s := by
  unfold CompleteName.contains CompleteName.indexSubstring
  simp only [Bool.and_eq_true, Bool.or_eq_true, decide_eq_true_eq, beq_iff_eq,
    bne_iff_ne, ne_eq]
  constructor
  · rintro ⟨hle, heq | ⟨hlt, (htake | hdrop) | hidx⟩⟩
    · subst heq; exact List.infix_refl _
    · exact (List.prefix_iff_eq_take.mpr htake.symm).isInfix
    · exact (List.suffix_iff_eq_drop.mpr hdrop.symm).isInfix
    · exact (CompleteName.indexSubstringFrom_ne_neg_one s sub 0).mp hidx
  · intro h
    refine ⟨h.length_le, ?_⟩
    by_cases heq : s = sub
    · exact Or.inl heq
    · refine Or.inr ⟨?_, Or.inr ?_⟩
      · exact Nat.lt_of_le_of_ne h.length_le
          (fun hl => heq ((h.eq_of_length hl).symm))
      · exact (CompleteName.indexSubstringFrom_ne_neg_one s sub 0).mpr h

/-- C9: for all strings `s` and `substr`, the hand-rolled
`contains(s, substr)` of `complete_name/main.go` returns true exactly when
`substr` occurs as a contiguous substring of `s` (the standard
substring-containment relation `<:+:`); consequently, for a non-nil error,
`isRateLimitError(err)` is true exactly when `"429"` occurs in the error
message. -/
theorem c9_contains_es_subcadena :
    (∀ s sub : List Char, CompleteName.contains s sub = true ↔ sub <:+: s) ∧
    (∀ msg : String, CompleteName.isRateLimitError (some msg) = true ↔
      ("429".toList <:+: msg.toList)) := by
  refine ⟨CompleteName.contains_iff, fun msg => ?_⟩
  exact CompleteName.contains_iff msg.toList ("429".toList)

/-! ## C10 — the verification-code extractor yields a single digit -/

theorem CodigoVerif.esDigito_spec (s : String) :
    CodigoVerif.esDigito s = true ↔
      ∃ c : Char, s = String.mk [c] ∧ c.isDigit = true := by
  unfold CodigoVerif.esDigito
  cases s with
  | mk data =>
    cases data with
    | nil =>
      simp only [String.toList]
      constructor
      · intro h; simp at h
      · rintro ⟨c2, hc, hd⟩
        simp [String.ext_iff] at hc
    | cons c rest =>
      cases rest with
      | nil =>
        simp only [String.toList]
        constructor
        · intro h; exact ⟨c, rfl, h⟩
        · rintro ⟨c2, hc, hd⟩
          cases hc
          exact hd
      | cons d rest2 =>
        simp only [String.toList]
        constructor
        · intro h; simp at h
        · rintro ⟨c2, hc, hd⟩
          simp [String.ext_iff] at hc

theorem CodigoVerif.primerCapDigito_digito (l : List (Option String)) :
    CodigoVerif.primerCapDigito l = "" ∨
      ∃ c : Char, CodigoVerif.primerCapDigito l = String.mk [c] ∧
        c.isDigit = true := by
  induction l with
  | nil => exact Or.inl rfl
  | cons cap resto ih =>
    cases cap with
    | none => simpa [CodigoVerif.primerCapDigito] using ih
    | some v =>
      by_cases hd : CodigoVerif.esDigito v
      · obtain ⟨c, hc, hdig⟩ := (CodigoVerif.esDigito_spec v).mp hd
        have hv : CodigoVerif.primerCapDigito (some v :: resto) = v := by
          simp [CodigoVerif.primerCapDigito, hd]
        exact Or.inr ⟨c, by rw [hv, hc], hdig⟩
      · simpa [CodigoVerif.primerCapDigito, hd] using ih

theorem CodigoVerif.extraerCodigo_digito (doc : HtmlDoc) :
    CodigoVerif.extraerCodigo doc = "" ∨
      ∃ c : Char, CodigoVerif.extraerCodigo doc = String.mk [c] ∧
        c.isDigit = true := by
  unfold CodigoVerif.extraerCodigo
  by_cases h1 : CodigoVerif.esDigito (recortar doc.markText)
  · rw [if_pos h1]
    obtain ⟨c, hc, hdig⟩ := (CodigoVerif.esDigito_spec _).mp h1
    exact Or.inr ⟨c, hc, hdig⟩
  · rw [if_neg h1]
    split
    · rename_i v heq
      by_cases h2 : CodigoVerif.esDigito v
      · rw [if_pos h2]
        obtain ⟨c, hc, hdig⟩ := (CodigoVerif.esDigito_spec v).mp h2
        exact Or.inr ⟨c, hc, hdig⟩
      · rw [if_neg h2]
        exact CodigoVerif.primerCapDigito_digito _
    · exact CodigoVerif.primerCapDigito_digito _

/-- C10: for every document, `extraerCodigo` returns either the empty
string or a string that is exactly one decimal digit; hence whenever the
verification-digit submission `enviarFormulario` succeeds, the code it
returns (which `reniec/main.go` then persists) is a single decimal digit. -/
theorem c10_extraerCodigo_un_digito :
    (∀ doc : HtmlDoc, CodigoVerif.extraerCodigo doc = "" ∨
      ∃ c : Char, CodigoVerif.extraerCodigo doc = String.mk [c] ∧
        c.isDigit = true) ∧
    (∀ (dni token : String) (e : HttpExchange) (codigo : String),
      (CodigoVerif.enviarFormulario dni token e).1 = Except.ok codigo →
      ∃ c : Char, codigo = String.mk [c] ∧ c.isDigit = true) := by
  refine ⟨CodigoVerif.extraerCodigo_digito, ?_⟩
  intro dni token e codigo h
  unfold CodigoVerif.enviarFormulario at h
  cases hdo : e.doErr with
  | some m => simp [hdo] at h
  | none =>
    simp only [hdo] at h
    by_cases hst : 400 ≤ e.status
    · rw [if_pos hst] at h; simp at h
    · rw [if_neg hst] at h
      cases hre : CodigoVerif.leerRespuesta e with
      | error m => simp [hre] at h
      | ok doc =>
        simp only [hre] at h
        by_cases hvac : CodigoVerif.extraerCodigo doc = ""
        · rw [if_pos hvac] at h; simp at h
        · rw [if_neg hvac] at h
          simp only [Except.ok.injEq] at h
          cases CodigoVerif.extraerCodigo_digito doc with
          | inl hempty => exact absurd hempty hvac
          | inr hdig => exact h ▸ hdig

/-! ## C7 — strategies in canonical order, first-match-wins per field -/

/-- Collapsing a strategy block that runs under "some field still empty":
when the field itself is empty the guard holds, and when it is non-empty
the block leaves it unchanged either way. -/
theorem ite_guardado {D : Prop} [Decidable D] {a x : String} (h : a = "" → D) :
    (if D then (if a = "" then x else a) else a) = if a = "" then x else a := by
  by_cases hD : D
  · rw [if_pos hD]
  · rw [if_neg hD, if_neg fun ha => hD (h ha)]

theorem ite_ne_vacia (x : String) : (if x ≠ "" then x else "") = x := by
  by_cases h : x = "" <;> simp [h]

theorem ite_vacia (x : String) : (if x = "" then "" else x) = x := by
  by_cases h : x = "" <;> simp [h]

theorem CodigoDatos.camposExtraidos_fst (doc : HtmlDoc) :
    (CodigoDatos.camposExtraidos doc).1 =
      primeraNoVacia (CodigoDatos.fuentesNombres doc) := by
  simp only [CodigoDatos.camposExtraidos, CodigoDatos.extractDataWithRegex]
  rw [ite_guardado (fun h => Or.inl h), ite_guardado (fun h => Or.inl h)]
  by_cases h1 : recortar doc.inputNombres = "" <;>
    by_cases h2 : CodigoDatos.celda doc 1 = "" <;>
    by_cases h3 : recortar doc.cssNombres = "" <;>
    cases hr : doc.regexNombres <;>
    simp_all [primeraNoVacia, CodigoDatos.fuentesNombres, ite_ne_vacia, ite_vacia]

theorem CodigoDatos.camposExtraidos_snd (doc : HtmlDoc) :
    (CodigoDatos.camposExtraidos doc).2.1 =
      primeraNoVacia (CodigoDatos.fuentesApellidoP doc) := by
  simp only [CodigoDatos.camposExtraidos, CodigoDatos.extractDataWithRegex]
  rw [ite_guardado (fun h => Or.inr (Or.inl h)),
    ite_guardado (fun h => Or.inr (Or.inl h))]
  by_cases h1 : recortar doc.inputApellidoP = "" <;>
    by_cases h2 : CodigoDatos.celda doc 2 = "" <;>
    by_cases h3 : recortar doc.cssApellidoP = "" <;>
    cases hr : doc.regexApellidoP <;>
    simp_all [primeraNoVacia, CodigoDatos.fuentesApellidoP, ite_ne_vacia, ite_vacia]

theorem CodigoDatos.camposExtraidos_trd (doc : HtmlDoc) :
    (CodigoDatos.camposExtraidos doc).2.2 =
      primeraNoVacia (CodigoDatos.fuentesApellidoM doc) := by
  simp only [CodigoDatos.camposExtraidos, CodigoDatos.extractDataWithRegex]
  rw [ite_guardado (fun h => Or.inr (Or.inr h)),
    ite_guardado (fun h => Or.inr (Or.inr h))]
  by_cases h1 : recortar doc.inputApellidoM = "" <;>
    by_cases h2 : CodigoDatos.celda doc 3 = "" <;>
    by_cases h3 : recortar doc.cssApellidoM = "" <;>
    cases hr : doc.regexApellidoM <;>
    simp_all [primeraNoVacia, CodigoDatos.fuentesApellidoM, ite_ne_vacia, ite_vacia]

/-- C7: for every document, the extraction strategies of
`extraerDatosPersona` are applied in the canonical order — structured
`#`-input lookup, table-cell lookup, CSS-class lookup, regex search — and a
later strategy never overwrites a field already filled by an earlier one:
each extracted field equals the first non-empty output in that order, so in
particular if strategy 1 fills a field, the record carries strategy 1's
value regardless of what later strategies would produce. -/
theorem c7_primera_estrategia_gana (doc : HtmlDoc) :
    CodigoDatos.camposExtraidos doc =
      (primeraNoVacia (CodigoDatos.fuentesNombres doc),
       primeraNoVacia (CodigoDatos.fuentesApellidoP doc),
       primeraNoVacia (CodigoDatos.fuentesApellidoM doc)) := by
  refine Prod.ext ?_ (Prod.ext ?_ ?_)
  · exact CodigoDatos.camposExtraidos_fst doc
  · exact CodigoDatos.camposExtraidos_snd doc
  · exact CodigoDatos.camposExtraidos_trd doc

/-! ## C6 — failure iff every field of interest stays empty -/

theorem primeraNoVacia_vacia_iff (l : List String) :
    primeraNoVacia l = "" ↔ ∀ x ∈ l, x = "" := by
  induction l with
  | nil => simp [primeraNoVacia]
  | cons x resto ih =>
    by_cases hx : x = "" <;> simp [primeraNoVacia, hx, ih]

/-- C6: for every fetched document, `extraerDatosPersona` returns the
`no se encontraron datos` failure if and only if all three fields of
interest remain empty after all strategies run — equivalently, iff every
strategy source in the document is empty; a record with at least one
non-empty field is returned as a success even when other fields are empty,
its `CodigoVerif` is deliberately left `""`, and no field is defaulted. -/
theorem c6_fallo_sii_campos_vacios (doc : HtmlDoc) (dni : String) :
    ((∃ msg, CodigoDatos.extraerDatosPersona doc dni = Except.error msg) ↔
      ∀ x ∈ CodigoDatos.fuentesNombres doc ++ CodigoDatos.fuentesApellidoP doc ++
          CodigoDatos.fuentesApellidoM doc, x = "") ∧
    (∀ r : DatosPersona, CodigoDatos.extraerDatosPersona doc dni = Except.ok r →
      r.dni = dni ∧ r.codigoVerif = "" ∧
      ¬(r.nombres = "" ∧ r.apellidoPaterno = "" ∧ r.apellidoMaterno = "")) := by
  have hfst := CodigoDatos.camposExtraidos_fst doc
  have hsnd := CodigoDatos.camposExtraidos_snd doc
  have htrd := CodigoDatos.camposExtraidos_trd doc
  simp only [CodigoDatos.extraerDatosPersona]
  by_cases hC : (CodigoDatos.camposExtraidos doc).1 = "" ∧
      (CodigoDatos.camposExtraidos doc).2.1 = "" ∧
      (CodigoDatos.camposExtraidos doc).2.2 = ""
  · rw [if_pos hC]
    constructor
    · constructor
      · intro _ x hx
        simp only [List.mem_append] at hx
        rcases hx with (hx | hx) | hx
        · exact (primeraNoVacia_vacia_iff _).mp (hfst.symm.trans hC.1) x hx
        · exact (primeraNoVacia_vacia_iff _).mp (hsnd.symm.trans hC.2.1) x hx
        · exact (primeraNoVacia_vacia_iff _).mp (htrd.symm.trans hC.2.2) x hx
      · intro _
        exact ⟨_, rfl⟩
    · intro r hr
      simp at hr
  · rw [if_neg hC]
    constructor
    · constructor
      · rintro ⟨msg, hmsg⟩
        simp at hmsg
      · intro hall
        exfalso
        apply hC
        refine ⟨hfst.trans ?_, hsnd.trans ?_, htrd.trans ?_⟩
        · exact (primeraNoVacia_vacia_iff _).mpr
            (fun x hx => hall x (by simp [hx]))
        · exact (primeraNoVacia_vacia_iff _).mpr
            (fun x hx => hall x (by simp [hx]))
        · exact (primeraNoVacia_vacia_iff _).mpr
            (fun x hx => hall x (by simp [hx]))
    · intro r hr
      simp only [Except.ok.injEq] at hr
      subst hr
      exact ⟨rfl, rfl, hC⟩

/-- Witness for C6: a page where only the `#nombres` input is filled
(with ` ANA `) yields a successful, partially filled record — name `ANA`,
both surnames empty — and is not a `no se encontraron datos` failure. -/
theorem c6_witness :
    (CodigoDatos.extraerDatosPersona ejemploDocParcial "12345678" =
      Except.ok ⟨"12345678", "ANA", "", "", ""⟩) ∧
    ((⟨"12345678", "ANA", "", "", ""⟩ : DatosPersona).codigoVerif = "" ∧
      ¬((⟨"12345678", "ANA", "", "", ""⟩ : DatosPersona).nombres = "" ∧
        (⟨"12345678", "ANA", "", "", ""⟩ : DatosPersona).apellidoPaterno = "" ∧
        (⟨"12345678", "ANA", "", "", ""⟩ : DatosPersona).apellidoMaterno = "")) :=
  ⟨by decide,
   ((c6_fallo_sii_campos_vacios ejemploDocParcial "12345678").2
     ⟨"12345678", "ANA", "", "", ""⟩ (by decide)).2⟩

/-! ## C2 — 8-digit validation before any network request -/

/-- The form-submission helper always issues exactly its one POST,
whatever the response. -/
theorem CodigoDatos.enviarFormularioDatos_log (dni token : String)
    (e : HttpExchange) :
    (CodigoDatos.enviarFormularioDatos dni token e).2 =
      [Req.post CodigoDatos.targetURL dni token] := by
  rcases e with ⟨doErr, status, readErr, doc⟩
  cases doErr <;> cases readErr <;>
    simp only [CodigoDatos.enviarFormularioDatos, CodigoVerif.leerRespuesta] <;>
    split <;> rfl

/-- Counterexample to C2 as stated: the worker's token-based submission
path (`consultarDNIConToken`) performs no format validation — with a token
in hand it submits the malformed identifier `ABC` to the network instead
of rejecting it with an invalid-input failure. -/
theorem c2_counterexample :
    formatoDNIValido "ABC" = false ∧
    (CompleteName.consultarDNIConToken "ABC" ejemploEstadoC8 {}).2 =
      [Req.post CodigoDatos.targetURL "ABC" "tok0"] := by
  exact ⟨by decide, by decide⟩

/-- C2 amended: the three direct lookup entry points — verification digit
(`ObtenerCodigoVerificacion`), person data (`ObtenerDatosPersona`) and
birth date (`ConsultarDNI`) — reject every identifier that is not an
8-digit numeric string with an invalid-input failure before issuing any
network request; the worker's token-based path instead rejects (without a
request) only when it has no token, and otherwise submits the identifier
unvalidated. -/
theorem c2_amended_validacion (dni : String) (hv : formatoDNIValido dni = false) :
    (∀ e1 e2 : HttpExchange,
      (CodigoVerif.ObtenerCodigoVerificacion dni e1 e2).2 = [] ∧
      (CodigoVerif.ObtenerCodigoVerificacion dni e1 e2).1 =
        Except.error "DNI inválido") ∧
    (∀ e1 e2 : HttpExchange,
      (CodigoDatos.ObtenerDatosPersona dni e1 e2).2 = [] ∧
      (CodigoDatos.ObtenerDatosPersona dni e1 e2).1 =
        Except.error "DNI inválido: debe tener 8 dígitos") ∧
    (∀ (st : Scraper.ScraperState) (t : Nat) (nonces : List Scraper.NonceResp)
        (posts : List Scraper.PostResp),
      (Scraper.ConsultarDNI dni st t nonces posts).log = [] ∧
      (Scraper.ConsultarDNI dni st t nonces posts).res =
        Except.error "DNI debe tener 8 dígitos") ∧
    (∀ (st : CompleteName.WorkerState) (e : HttpExchange), st.token ≠ "" →
      (CompleteName.consultarDNIConToken dni st e).2 =
        [Req.post CodigoDatos.targetURL dni st.token]) := by
  refine ⟨fun e1 e2 => ?_, fun e1 e2 => ?_, fun st t nonces posts => ?_,
    fun st e htok => ?_⟩
  · unfold CodigoVerif.ObtenerCodigoVerificacion
    rw [hv]
    exact ⟨rfl, rfl⟩
  · unfold CodigoDatos.ObtenerDatosPersona
    rw [hv]
    exact ⟨rfl, rfl⟩
  · unfold Scraper.ConsultarDNI Scraper.consultarDNIGo
    rw [hv]
    exact ⟨rfl, rfl⟩
  · unfold CompleteName.consultarDNIConToken
    rw [if_neg htok]
    exact CodigoDatos.enviarFormularioDatos_log dni st.token e

/-- Witness for C2 (amended): the malformed identifier `123` is rejected
without a request by the digit lookup, and submitted unvalidated by the
worker path. -/
theorem c2_amended_witness :
    formatoDNIValido "123" = false ∧
    (CodigoVerif.ObtenerCodigoVerificacion "123" {} {}).2 = [] ∧
    (CompleteName.consultarDNIConToken "123" ejemploEstadoC8 {}).2 =
      [Req.post CodigoDatos.targetURL "123" ejemploEstadoC8.token] :=
  ⟨by decide,
   ((c2_amended_validacion "123" (by decide)).1 {} {}).1,
   (c2_amended_validacion "123" (by decide)).2.2.2 ejemploEstadoC8 {} (by decide)⟩

/-! ## C4 — fatal failure classes and retries -/

/-- Counterexample to C4 as stated: a malformed identifier is a fatal
failure class (`DNI inválido`), yet `procesarDNI` retries it — the attempt
sequence for `1234567A` has two attempts, not one, and terminates only by
exhausting the ceiling, returning the same fatal error. -/
theorem c4_counterexample :
    (CodigoVerif.ObtenerCodigoVerificacion "1234567A" {} {}).1 =
      Except.error "DNI inválido" ∧
    (Reniec.procesarDNI "1234567A" ({}, {}) ({}, {})).2 = 2 ∧
    (Reniec.procesarDNI "1234567A" ({}, {}) ({}, {})).1 =
      Except.error "DNI inválido" := by
  exact ⟨by decide, by decide, by decide⟩

/-- C4 amended: the retry wrappers make no distinction between fatal and
transient failure classes: in both `procesarDNI` and `procesarDNIConToken`
a second attempt is made exactly when the first attempt fails — whatever
the failure (malformed identifier, not-found, no-data-found or transient)
— and the ceiling of 2 attempts is what terminates a failing sequence. -/
theorem Reniec.procesarDNI_intentos (dni : String)
    (a1 a2 : HttpExchange × HttpExchange) :
    (Reniec.procesarDNI dni a1 a2).2 =
      if (CodigoVerif.ObtenerCodigoVerificacion dni a1.1 a1.2).1.isOk then 1
      else 2 := by
  unfold Reniec.procesarDNI
  rcases hres : CodigoVerif.ObtenerCodigoVerificacion dni a1.1 a1.2 with ⟨r, log⟩
  cases r with
  | ok c => simp [hres, Except.isOk, Except.toBool]
  | error msg =>
    rcases hres2 : CodigoVerif.ObtenerCodigoVerificacion dni a2.1 a2.2 with ⟨r2, log2⟩
    cases r2 with
    | ok c => simp [hres, hres2, Except.isOk, Except.toBool]
    | error msg2 => simp [hres, hres2, Except.isOk, Except.toBool]

theorem CompleteName.procesarDNIConToken_intentos (dni : String)
    (st : CompleteName.WorkerState) (e1 r1 e2 r2 : HttpExchange) :
    (CompleteName.procesarDNIConToken dni st e1 r1 e2 r2).2.2.2 =
      if (CompleteName.consultarDNIConToken dni st e1).1.isOk then 1
      else 2 := by
  unfold CompleteName.procesarDNIConToken
  rcases hres : CompleteName.consultarDNIConToken dni st e1 with ⟨r, log1⟩
  cases r with
  | ok datos => simp [hres, Except.isOk, Except.toBool]
  | error err1 =>
    simp only [hres, Except.isOk, Except.toBool]
    split <;> simp

theorem c4_amended_reintenta_todo :
    (∀ (dni : String) (a1 a2 : HttpExchange × HttpExchange),
      (Reniec.procesarDNI dni a1 a2).2 =
        if (CodigoVerif.ObtenerCodigoVerificacion dni a1.1 a1.2).1.isOk then 1
        else 2) ∧
    (∀ (dni : String) (st : CompleteName.WorkerState) (e1 r1 e2 r2 : HttpExchange),
      (CompleteName.procesarDNIConToken dni st e1 r1 e2 r2).2.2.2 =
        if (CompleteName.consultarDNIConToken dni st e1).1.isOk then 1
        else 2) :=
  ⟨Reniec.procesarDNI_intentos, CompleteName.procesarDNIConToken_intentos⟩

/-- Witness for C4 (amended): for the malformed identifier `1234567A` the
first attempt fails, so `procesarDNI` makes exactly 2 attempts. -/
theorem c4_amended_witness :
    (Reniec.procesarDNI "1234567A" ({}, {}) ({}, {})).2 =
      if (CodigoVerif.ObtenerCodigoVerificacion "1234567A" {} {}).1.isOk then 1
      else 2 :=
  c4_amended_reintenta_todo.1 "1234567A" ({}, {}) ({}, {})

/-- Witness for C10: a page whose `mark` holds ` 5 ` makes the submission
succeed with the single digit `5`. -/
theorem c10_witness :
    (CodigoVerif.enviarFormulario "12345678" "tok" { doc := ejemploDocDigito }).1 =
      Except.ok "5" ∧
    ∃ c : Char, "5" = String.mk [c] ∧ c.isDigit = true :=
  ⟨by decide,
   c10_extraerCodigo_un_digito.2 "12345678" "tok" { doc := ejemploDocDigito } "5"
     (by decide)⟩

/-! ## C8 — failed rotation and stale tokens -/

/-- Counterexample to C8 as stated: after the first attempt is throttled
(HTTP 429) the worker tries to rotate, the rotation fails at the transport
level and leaves the state untouched, and the next lookup attempt is
nevertheless submitted with the pre-rotation token `tok0` — a request with
a token left over from before a failed rotation. -/
theorem c8_counterexample :
    (CompleteName.renovarToken ejemploEstadoC8 ejemploIntercambioCaido).2.1 =
      some "conexion rechazada" ∧
    (CompleteName.renovarToken ejemploEstadoC8 ejemploIntercambioCaido).1 =
      ejemploEstadoC8 ∧
    (CompleteName.procesarDNIConToken "12345678" ejemploEstadoC8
        ejemploIntercambio429 ejemploIntercambioCaido ejemploIntercambio429
        ejemploIntercambioCaido).2.2.1 =
      [Req.post CodigoDatos.targetURL "12345678" "tok0",
       Req.get CompleteName.targetURL,
       Req.post CodigoDatos.targetURL "12345678" "tok0",
       Req.get CompleteName.targetURL] := by
  exact ⟨by decide, by decide, by decide⟩

/-- C8 amended: a failed rotation is logged and otherwise ignored — the
worker keeps the stale token (a failing `renovarToken` returns the state
unchanged) and the next lookup attempt is issued with it; the only
token-related condition that makes a lookup fail without a network request
is a token that was never acquired (empty). -/
theorem c8_amended_token_viciado :
    (∀ (st : CompleteName.WorkerState) (e : HttpExchange),
      (CompleteName.renovarToken st e).2.1.isSome →
      (CompleteName.renovarToken st e).1 = st) ∧
    (∀ (dni : String) (st : CompleteName.WorkerState) (e : HttpExchange),
      st.token = "" →
      (CompleteName.consultarDNIConToken dni st e).2 = [] ∧
      (CompleteName.consultarDNIConToken dni st e).1 =
        Except.error "token no disponible") := by
  constructor
  · intro st e h
    rcases e with ⟨doErr, status, readErr, doc⟩
    cases doErr with
    | some m => rfl
    | none =>
      simp only [CompleteName.renovarToken] at h ⊢
      by_cases hst : 400 ≤ status
      · rw [if_pos hst] at h ⊢
      · rw [if_neg hst] at h ⊢
        cases readErr with
        | some m => rfl
        | none =>
          cases htok : CodigoDatos.ExtraerToken doc with
          | error m => simp [htok]
          | ok t =>
            rw [htok] at h
            simp at h
  · intro dni st e htok
    unfold CompleteName.consultarDNIConToken
    rw [if_pos htok]
    exact ⟨rfl, rfl⟩

/-- Witness for C8 (amended): the concrete failed rotation leaves the
state `tok0` unchanged, and a worker with no token fails without issuing a
request. -/
theorem c8_amended_witness :
    (CompleteName.renovarToken ejemploEstadoC8 ejemploIntercambioCaido).1 =
      ejemploEstadoC8 ∧
    (CompleteName.consultarDNIConToken "12345678" {} {}).2 = [] :=
  ⟨c8_amended_token_viciado.1 ejemploEstadoC8 ejemploIntercambioCaido (by decide),
   (c8_amended_token_viciado.2 "12345678" {} {} (by decide)).1⟩

/-! ## C5 — attempt ceilings and backoff -/

theorem Scraper.cuenta_saturada (k : Nat) :
    ∀ (st : Scraper.ScraperState) (t : Nat),
      st.requestsInMinute = 0 → st.requestCount = 0 → ¬ st.nonce = "" →
      ((Scraper.consultarDNIGo (k + 2) "11111111" st t
          (List.replicate k ⟨0, none, some "n"⟩)
          (List.replicate k
              ⟨0, Scraper.PostOutcome.noExitosa "demasiadas solicitudes"⟩ ++
            [⟨0, Scraper.PostOutcome.netErr "sin conexion"⟩])).log.filter
          (fun q => q.2.esPost)).length = k + 1 := by
  induction k with
  | zero =>
    intro st t h1 h2 h3
    rw [show (0 + 2 : Nat) = Nat.succ 1 from rfl, Scraper.consultarDNIGo.eq_2]
    by_cases hro : 60 ≤ t - st.minuteStart <;>
      simp [hro, h1, h2, h3, Scraper.getNonce, Scraper.resetSession,
        Req.esPost, List.filter_append,
        show formatoDNIValido "11111111" = true from by decide]
  | succ k ih =>
    intro st t h1 h2 h3
    have hpost : ∀ u d tk : String, (Req.post u d tk).esPost = true :=
      fun _ _ _ => rfl
    have hget : ∀ u : String, (Req.get u).esPost = false := fun _ => rfl
    rw [show (k + 1 + 2 : Nat) = Nat.succ (k + 2) from rfl,
      Scraper.consultarDNIGo.eq_2]
    by_cases hro : 60 ≤ t - st.minuteStart <;>
      simp [hro, h1, h2, h3, Scraper.getNonce, Scraper.resetSession,
        List.replicate_succ, hpost, hget, List.filter_append, ih,
        show formatoDNIValido "11111111" = true from by decide,
        show Scraper.goContains "demasiadas solicitudes"
          "demasiadas solicitudes" = true from by decide]

/-- Counterexample to C5 as stated: the birth-date scraper's
too-many-requests path has no fixed attempt ceiling.  Against an endpoint
that keeps answering `demasiadas solicitudes`, one `ConsultarDNI` call
makes `k + 1` submission attempts after `k` throttled responses, so no
fixed ceiling bounds the attempts (in particular the ceiling
`maxReintentos = 2` used by the wrappers is exceeded); the 10-second
cooldown before each such retry is constant, not monotonically
increasing. -/
theorem c5_counterexample :
    ¬ ∃ B : Nat, ∀ k : Nat,
      ((Scraper.trazaSaturada k).log.filter (fun q => q.2.esPost)).length ≤ B := by
  rintro ⟨B, hB⟩
  have h := Scraper.cuenta_saturada B { nonce := "n0" } 0 rfl rfl (by decide)
  have h2 := hB B
  rw [Scraper.trazaSaturada, Scraper.ConsultarDNI] at h2
  simp only [List.length_append, List.length_replicate, List.length_singleton] at h2
  rw [show B + 1 + 1 = B + 2 from rfl] at h2
  omega

/-- C5 amended: the two batch wrappers (`procesarDNI` and
`procesarDNIConToken`) bound the attempts for one identifier by the fixed
ceiling `maxReintentos = 2`, and their backoff and rate-limit-cooldown
formulas are strictly increasing in the attempt index; the birth-date
scraper's too-many-requests path, by contrast, retries by self-recursion
with no attempt ceiling and a constant cooldown. -/
theorem c5_amended_tope_y_backoff :
    (∀ (dni : String) (a1 a2 : HttpExchange × HttpExchange),
      (Reniec.procesarDNI dni a1 a2).2 ≤ Reniec.maxReintentos) ∧
    (∀ (dni : String) (st : CompleteName.WorkerState)
        (e1 r1 e2 r2 : HttpExchange),
      (CompleteName.procesarDNIConToken dni st e1 r1 e2 r2).2.2.2 ≤
        CompleteName.maxReintentos) ∧
    (∀ i : Nat, Reniec.backoff i < Reniec.backoff (i + 1)) ∧
    (∀ i : Nat, CompleteName.backoff i < CompleteName.backoff (i + 1)) ∧
    (∀ i : Nat,
      CompleteName.waitRateLimit i < CompleteName.waitRateLimit (i + 1)) := by
  refine ⟨fun dni a1 a2 => ?_, fun dni st e1 r1 e2 r2 => ?_, fun i => ?_,
    fun i => ?_, fun i => ?_⟩
  · rw [Reniec.procesarDNI_intentos]
    split <;> simp [Reniec.maxReintentos]
  · rw [CompleteName.procesarDNIConToken_intentos]
    split <;> simp [CompleteName.maxReintentos]
  · unfold Reniec.backoff
    omega
  · unfold CompleteName.backoff
    omega
  · unfold CompleteName.waitRateLimit
    omega

/-! ## C3 — the rate gate -/

theorem Scraper.getNonce_riM (st : Scraper.ScraperState) (t : Nat)
    (l : List Scraper.NonceResp) :
    (Scraper.getNonce st t l).st.requestsInMinute = st.requestsInMinute := by
  cases l with
  | nil => rfl
  | cons r resto =>
    simp only [Scraper.getNonce]
    cases r.err with
    | some m => rfl
    | none =>
      cases r.nonceEncontrado with
      | some nz => dsimp only; split <;> rfl
      | none => dsimp only; split <;> rfl

theorem Scraper.resetSession_riM (st : Scraper.ScraperState) (t : Nat)
    (l : List Scraper.NonceResp) :
    (Scraper.resetSession st t l).st.requestsInMinute = st.requestsInMinute := by
  unfold Scraper.resetSession
  rw [Scraper.getNonce_riM]

set_option maxHeartbeats 2000000 in
theorem Scraper.riM_acotado : ∀ (fuel : Nat) (dni : String)
    (st : Scraper.ScraperState) (t : Nat) (nonces : List Scraper.NonceResp)
    (posts : List Scraper.PostResp),
    st.requestsInMinute ≤ 5 →
    (Scraper.consultarDNIGo fuel dni st t nonces posts).st.requestsInMinute ≤ 5 := by
  intro fuel
  induction fuel with
  | zero =>
    intro dni st t nonces posts h
    exact h
  | succ fuel ih =>
    intro dni st t nonces posts h
    rw [show fuel + 1 = Nat.succ fuel from rfl, Scraper.consultarDNIGo.eq_2]
    by_cases hval : (!(formatoDNIValido dni)) = true
    · rw [if_pos hval]
      exact h
    · rw [if_neg hval]
      dsimp only
      repeat' split
      all_goals
        first
        | exact h
        | (apply ih
           simp_all [Scraper.getNonce_riM, Scraper.resetSession_riM])
        | (simp_all [Scraper.getNonce_riM, Scraper.resetSession_riM] <;> omega)

/-- Counterexample to C3 as stated: five successful lookups from a fresh
scraper issue seven HTTP requests — the initial nonce GET, five submission
POSTs, and the nonce GET of the session reset that the 5th call performs —
all within the first 51 seconds, i.e. more than 5 requests inside one
rolling 60-second window of wall-clock time (and the reset GETs bypass the
request budget entirely). -/
theorem c3_counterexample :
    trazaC3.map Prod.fst = [0, 0, 12, 24, 36, 51, 51] ∧
    5 < (trazaC3.filter (fun q => q.1 < 60)).length := by
  exact ⟨by decide, by decide⟩

/-- C3 amended: the gate is a fixed-window budget, not a rolling-window
one: the in-window submission counter `requestsInMinute` never exceeds 5 —
at most 5 POSTs are counted against any one window before it is reset —
but nonce GETs bypass the budget and a rolling 60-second interval can
contain more than 5 requests. -/
theorem c3_amended_presupuesto_fijo (dni : String) (st : Scraper.ScraperState)
    (t : Nat) (nonces : List Scraper.NonceResp) (posts : List Scraper.PostResp)
    (h : st.requestsInMinute ≤ 5) :
    (Scraper.ConsultarDNI dni st t nonces posts).st.requestsInMinute ≤ 5 :=
  Scraper.riM_acotado (posts.length + 1) dni st t nonces posts h

/-- Witness for C3 (amended): a concrete call from a fresh scraper ends
with the in-window counter at most 5. -/
theorem c3_amended_witness :
    (Scraper.ConsultarDNI "11111111" {} 0 ejemploNoncesC3
      ejemploPostsC3).st.requestsInMinute ≤ 5 :=
  c3_amended_presupuesto_fijo "11111111" {} 0 ejemploNoncesC3 ejemploPostsC3
    (by decide)

/-! ## C1 — one terminal result per enqueued identifier -/

theorem Batch.carga_paso {b : Bool} {s s' : Batch.BatchState}
    (h : Batch.BStep b s s') : Batch.carga s' = Batch.carga s := by
  cases h <;>
    simp only [Batch.carga, Batch.enProceso, List.filterMap_append,
      List.filterMap_cons, ← Multiset.coe_add, ← Multiset.cons_coe,
      ← Multiset.singleton_add] <;>
    abel

theorem Batch.vive_paso {s s' : Batch.BatchState} (h : Batch.BStep false s s')
    (hv : Batch.ViveAlguien s) : Batch.ViveAlguien s' := by
  cases h with
  | startOk b q pre post buf con =>
    intro _
    exact ⟨Batch.WPhase.idle, by simp, by simp⟩
  | take b d q pre post buf con =>
    intro _
    exact ⟨Batch.WPhase.working d, by simp, by simp⟩
  | emit b d q pre post buf con =>
    intro _
    exact ⟨Batch.WPhase.idle, by simp, by simp⟩
  | finish b pre post buf con =>
    intro hq
    exact absurd rfl hq
  | consume b q ws d buf con =>
    intro hq
    exact hv hq

theorem Batch.carga_alcanzable {b : Bool} {s s' : Batch.BatchState}
    (h : Relation.ReflTransGen (Batch.BStep b) s s') :
    Batch.carga s' = Batch.carga s := by
  induction h with
  | refl => rfl
  | tail _ hstep ih => rw [Batch.carga_paso hstep]; exact ih

theorem Batch.vive_alcanzable {s s' : Batch.BatchState}
    (h : Relation.ReflTransGen (Batch.BStep false) s s')
    (hv : Batch.ViveAlguien s) : Batch.ViveAlguien s' := by
  induction h with
  | refl => exact hv
  | tail _ hstep ih => exact Batch.vive_paso hstep ih

/-- C1 amended: in a batch run in which no worker fails its initial
session acquisition (`BStep false` excludes `startFail`), every enqueued
identifier produces exactly one terminal result which the collector
consumes exactly once before the `{exitosos, errores, total}` summary: in
any reachable state where all workers are done and the result buffer is
drained, the consumed results are exactly the enqueued identifiers, with
no omission and no duplicate (multiset equality). -/
theorem c1_un_resultado_por_dni (dnis : List String) (n : Nat)
    (s' : Batch.BatchState) (hn : n ≠ 0)
    (hr : Relation.ReflTransGen (Batch.BStep false)
      ⟨dnis, List.replicate n Batch.WPhase.starting, [], []⟩ s')
    (hdone : ∀ w ∈ s'.workers, w = Batch.WPhase.done)
    (hbuf : s'.buffer = []) :
    (s'.consumed : Multiset String) = (dnis : Multiset String) := by
  have hv0 : Batch.ViveAlguien
      ⟨dnis, List.replicate n Batch.WPhase.starting, [], []⟩ := by
    intro _
    exact ⟨Batch.WPhase.starting, by simp [List.mem_replicate]; exact hn,
      by simp⟩
  have hq : s'.queue = [] := by
    by_contra hq
    obtain ⟨w, hw, hne⟩ := Batch.vive_alcanzable hr hv0 hq
    exact hne (hdone w hw)
  have henp : Batch.enProceso s'.workers = [] := by
    apply List.filterMap_eq_nil_iff.mpr
    intro w hw
    rw [hdone w hw]
  have h0 : Batch.enProceso (List.replicate n Batch.WPhase.starting) = [] := by
    apply List.filterMap_eq_nil_iff.mpr
    intro w hw
    rw [List.eq_of_mem_replicate hw]
  have hc := Batch.carga_alcanzable hr
  unfold Batch.carga at hc
  rw [hq, henp, hbuf, h0] at hc
  simpa using hc

/-- Witness for C1 (amended): one worker, one identifier, the full
successful interleaving (start, take, emit, finish, consume) — the
terminal state has consumed exactly the enqueued identifier. -/
theorem c1_un_resultado_witness :
    ((⟨[], [Batch.WPhase.done], [], ["11111111"]⟩ :
        Batch.BatchState).consumed : Multiset String) =
      ((["11111111"] : List String) : Multiset String) := by
  apply c1_un_resultado_por_dni ["11111111"] 1
  · decide
  · exact Relation.ReflTransGen.head
      (Batch.BStep.startOk false ["11111111"] [] [] [] [])
      (Relation.ReflTransGen.head
        (Batch.BStep.take false "11111111" [] [] [] [] [])
        (Relation.ReflTransGen.head
          (Batch.BStep.emit false "11111111" [] [] [] [] [])
          (Relation.ReflTransGen.head
            (Batch.BStep.finish false [] [] ["11111111"] [])
            (Relation.ReflTransGen.head
              (Batch.BStep.consume false [] [Batch.WPhase.done] "11111111" [] [])
              Relation.ReflTransGen.refl))))
  · decide
  · rfl

/-- Counterexample to C1 as stated: when both workers fail their initial
token acquisition (`workerConToken` returns before consuming the queue),
the run reaches a terminal state — all workers done, result channel
drained, the summary printed — in which nothing was consumed although two
identifiers were enqueued: they are silently dropped, with no terminal
ResultRecord. -/
theorem c1_counterexample :
    Relation.ReflTransGen (Batch.BStep true)
      ⟨["11111111", "22222222"], List.replicate 2 Batch.WPhase.starting, [], []⟩
      ⟨["11111111", "22222222"], [Batch.WPhase.done, Batch.WPhase.done], [], []⟩ ∧
    (∀ w ∈ [Batch.WPhase.done, Batch.WPhase.done], w = Batch.WPhase.done) ∧
    ¬ ((([] : List String) : Multiset String) =
        ((["11111111", "22222222"] : List String) : Multiset String)) := by
  refine ⟨?_, by decide, ?_⟩
  · exact Relation.ReflTransGen.head
      (Batch.BStep.startFail ["11111111", "22222222"] [] [Batch.WPhase.starting] [] [])
      (Relation.ReflTransGen.head
        (Batch.BStep.startFail ["11111111", "22222222"] [Batch.WPhase.done] [] [] [])
        Relation.ReflTransGen.refl)
  · intro h
    simpa using congrArg Multiset.card h
